import Mathlib

/-!
Verification development for the money-swap matching marketplace
(Django application `swap_app`): shallow embedding of the swap lifecycle
service, fee computation, blockchain-styled audit ledger, agent trust
scoring, recommendation scoring, proof parsing/validation, and the
pending-expiry sweep, together with theorems settling the spec claims.

Python `Decimal` values are modelled as `ℚ`; `Decimal.quantize(Decimal('0.01'))`
and Python's built-in `round` both use banker's rounding (round half to even),
modelled by `rhe` below.  Timestamps are modelled as `ℤ` seconds.
-/

namespace MoneySwap

/-- Round half to even: nearest integer to `x`, ties resolved to the even
integer.  This is the rounding used by Python's `round` and by
`Decimal.quantize` under the default context. -/
def rhe (x : ℚ) : ℤ :=
  if x - (⌊x⌋ : ℚ) < 1/2 then ⌊x⌋
  else if 1/2 < x - (⌊x⌋ : ℚ) then ⌊x⌋ + 1
  else if ⌊x⌋ % 2 = 0 then ⌊x⌋ else ⌊x⌋ + 1

/-- `Decimal.quantize(Decimal('0.01'))`: round to two decimal places,
half to even. -/
def quantize2 (x : ℚ) : ℚ := ((rhe (100 * x) : ℤ) : ℚ) / 100

/-- Python `round(x, 1)`: round to one decimal place, half to even. -/
def pyRound1 (x : ℚ) : ℚ := ((rhe (10 * x) : ℤ) : ℚ) / 10

theorem rhe_le (x : ℚ) : ((rhe x : ℤ) : ℚ) ≤ x + 1/2 := by
  have h1 : ((⌊x⌋ : ℤ) : ℚ) ≤ x := Int.floor_le x
  have h2 : x < ((⌊x⌋ : ℤ) : ℚ) + 1 := Int.lt_floor_add_one x
  unfold rhe
  split_ifs <;> push_cast <;> linarith

theorem le_rhe (x : ℚ) : x - 1/2 ≤ ((rhe x : ℤ) : ℚ) := by
  have h1 : ((⌊x⌋ : ℤ) : ℚ) ≤ x := Int.floor_le x
  have h2 : x < ((⌊x⌋ : ℤ) : ℚ) + 1 := Int.lt_floor_add_one x
  unfold rhe
  split_ifs <;> push_cast <;> linarith

theorem abs_rhe_sub_le (x : ℚ) : |((rhe x : ℤ) : ℚ) - x| ≤ 1/2 := by
  have h1 := rhe_le x
  have h2 := le_rhe x
  rw [abs_le]
  constructor <;> linarith

theorem rhe_mono {x y : ℚ} (h : x ≤ y) : rhe x ≤ rhe y := by
  by_contra hc
  push_neg at hc
  have hstep : rhe y + 1 ≤ rhe x := hc
  have hcast : ((rhe y : ℤ) : ℚ) + 1 ≤ ((rhe x : ℤ) : ℚ) := by exact_mod_cast hstep
  have h1 := rhe_le x
  have h2 := le_rhe y
  have hxy : x = y := le_antisymm h (by linarith)
  subst hxy
  omega

theorem abs_quantize2_sub_le (x : ℚ) : |quantize2 x - x| ≤ 1/200 := by
  have h := abs_rhe_sub_le (100 * x)
  have heq : quantize2 x - x = (((rhe (100 * x) : ℤ) : ℚ) - 100 * x) / 100 := by
    unfold quantize2; ring
  rw [heq, abs_div]
  rw [show |(100 : ℚ)| = 100 by norm_num]
  linarith

theorem quantize2_mono {x y : ℚ} (h : x ≤ y) : quantize2 x ≤ quantize2 y := by
  unfold quantize2
  have := rhe_mono (show 100 * x ≤ 100 * y by linarith)
  have hc : ((rhe (100 * x) : ℤ) : ℚ) ≤ ((rhe (100 * y) : ℤ) : ℚ) := by exact_mod_cast this
  linarith

theorem pyRound1_mono {x y : ℚ} (h : x ≤ y) : pyRound1 x ≤ pyRound1 y := by
  unfold pyRound1
  have := rhe_mono (show 10 * x ≤ 10 * y by linarith)
  have hc : ((rhe (10 * x) : ℤ) : ℚ) ≤ ((rhe (10 * y) : ℤ) : ℚ) := by exact_mod_cast this
  linarith

/-! ## Swap lifecycle (`swap_app/services/swap_service.py`, `swap_app/models.py`) -/

/-- The status enum of `SwapRequest.STATUS_CHOICES` (`models.py`), plus the
`REJECTED` value written by the agent-response view. -/
inductive Status
  | PENDING
  | ACCEPTED
  | AWAITING_CLIENT_PROOF
  | CLIENT_PROOF_UPLOADED
  | AWAITING_AGENT_PROOF
  | AGENT_PROOF_UPLOADED
  | COMPLETE
  | DISPUTE
  | CANCELLED
  | EXPIRED
  | REJECTED
deriving DecidableEq, Repr

/-- The `SwapRequest` record (`models.py`), restricted to the fields the
core operations read or write.  `created_at` and `agent_response_at` are
seconds on an abstract clock. -/
structure SwapRec where
  client : ℕ
  agent : ℕ
  amount : ℚ
  from_service : String
  to_service : String
  dest_number : String
  status : Status
  reference : String
  platform_fee : ℚ
  agent_fee : ℚ
  created_at : ℤ
  agent_response_at : Option ℤ
deriving DecidableEq, Repr

/-- Agent fields consulted by `SwapService` (`models.py` `Agent`):
`can_accept_swap` abstracts the daily-capacity query property. -/
structure AgentRec where
  id : ℕ
  is_online : Bool
  can_accept_swap : Bool
deriving DecidableEq, Repr

/-- The `ValueError`s raised by `SwapService.create_swap` / `accept_swap`. -/
inductive SwapError
  | agentUnavailable
  | capacityExceeded
  | notOwnSwap
deriving DecidableEq, Repr

/-- `total_fee = max(amount * Decimal('0.006'), Decimal('50'))`
(`swap_service.py` line 27). -/
def total_fee (amount : ℚ) : ℚ := max (amount * (6/1000)) 50

/-- `platform_fee = (total_fee * Decimal('0.25')).quantize(Decimal('0.01'))`
(`swap_service.py` line 28). -/
def platform_fee (amount : ℚ) : ℚ := quantize2 (total_fee amount * (25/100))

/-- `agent_fee = (total_fee * Decimal('0.75')).quantize(Decimal('0.01'))`
(`swap_service.py` line 29). -/
def agent_fee (amount : ℚ) : ℚ := quantize2 (total_fee amount * (75/100))

/-- `SwapService.create_swap` (`swap_service.py` lines 16-55): validates the
agent's availability and capacity, computes the fee split and persists a
`PENDING` swap.  The random reference string and the clock are passed in as
arguments (`get_random_string` and the database timestamp are external). -/
def create_swap (client : ℕ) (agent : AgentRec) (amount : ℚ)
    (from_service to_service dest_number reference : String) (now : ℤ) :
    Except SwapError SwapRec :=
  if ¬agent.is_online then .error .agentUnavailable
  else if ¬agent.can_accept_swap then .error .capacityExceeded
  else .ok
    { client := client
      agent := agent.id
      amount := amount
      from_service := from_service
      to_service := to_service
      dest_number := dest_number
      status := .PENDING
      reference := reference
      platform_fee := platform_fee amount
      agent_fee := agent_fee amount
      created_at := now
      agent_response_at := none }

/-- `SwapService.accept_swap` (`swap_service.py` lines 57-79): checks only
that the caller is the assigned agent and that the agent still has daily
capacity, then writes `status = 'ACCEPTED'`.  Note: the source performs no
check of the swap's current status. -/
def accept_swap (swap : SwapRec) (agent : AgentRec) (now : ℤ) :
    Except SwapError SwapRec :=
  if swap.agent ≠ agent.id then .error .notOwnSwap
  else if ¬agent.can_accept_swap then .error .capacityExceeded
  else .ok { swap with status := .ACCEPTED, agent_response_at := some now }

/-! ## Claims C1-C3 -/

/-- A concrete swap sitting in the terminal `COMPLETE` status, assigned to
agent 2, used to exercise `accept_swap` outside `PENDING`. -/
def completedSwap : SwapRec :=
  { client := 1
    agent := 2
    amount := 1000
    from_service := "national_bank"
    to_service := "TNM"
    dest_number := "0881234567"
    status := .COMPLETE
    reference := "SWAPABCDEFGH"
    platform_fee := 3/2
    agent_fee := 9/2
    created_at := 0
    agent_response_at := some 60 }

/-- Claim C1 (code bug evidence): `accept_swap` performs no status check, so
called on a swap whose status is `COMPLETE` (not `PENDING`) with its own
agent, it succeeds and overwrites the status with `ACCEPTED`, instead of
failing with an invalid-transition error and leaving the status unchanged. -/
theorem claim1_accept_swap_ignores_status :
    completedSwap.status = Status.COMPLETE
    ∧ accept_swap completedSwap ⟨2, true, true⟩ 4000
        = .ok { completedSwap with status := .ACCEPTED, agent_response_at := some 4000 }
    ∧ (accept_swap completedSwap ⟨2, true, true⟩ 4000).toOption.map SwapRec.status
        = some Status.ACCEPTED := by
  refine ⟨rfl, rfl, rfl⟩

/-- Claim C2 (amended): the fees are the banker's roundings of the 25% and
75% shares of `totalFee = max(amount * 0.006, 50)`; their sum agrees with
`round(totalFee, 2)` only up to one cent (each share is rounded separately,
so the sum can differ from the rounded total by 0.01). -/
theorem claim2_fee_split (amount : ℚ) :
    platform_fee amount = quantize2 (total_fee amount * (25/100))
    ∧ agent_fee amount = quantize2 (total_fee amount * (75/100))
    ∧ |platform_fee amount + agent_fee amount - quantize2 (total_fee amount)| ≤ 1/100 := by
  refine ⟨rfl, rfl, ?_⟩
  have h1 := abs_quantize2_sub_le (total_fee amount * (25/100))
  have h2 := abs_quantize2_sub_le (total_fee amount * (75/100))
  have h3 := abs_quantize2_sub_le (total_fee amount)
  rw [abs_le] at h1 h2 h3
  have hp : platform_fee amount = quantize2 (total_fee amount * (25/100)) := rfl
  have ha : agent_fee amount = quantize2 (total_fee amount * (75/100)) := rfl
  have hsplit : total_fee amount * (25/100) + total_fee amount * (75/100)
      = total_fee amount := by ring
  have hm : platform_fee amount + agent_fee amount - quantize2 (total_fee amount)
      = ((rhe (100 * (total_fee amount * (25/100)))
          + rhe (100 * (total_fee amount * (75/100)))
          - rhe (100 * total_fee amount) : ℤ) : ℚ) / 100 := by
    unfold platform_fee agent_fee quantize2
    push_cast
    ring
  have habs : |platform_fee amount + agent_fee amount - quantize2 (total_fee amount)|
      ≤ 3/200 := by
    rw [abs_le, hp, ha]
    constructor <;> linarith
  rw [hm] at habs ⊢
  set z : ℤ := rhe (100 * (total_fee amount * (25/100)))
      + rhe (100 * (total_fee amount * (75/100))) - rhe (100 * total_fee amount)
  rw [abs_div, show |(100 : ℚ)| = 100 by norm_num] at habs ⊢
  have hzq : |(z : ℚ)| ≤ 3/2 := by linarith
  have hz1 : |z| ≤ 1 := by
    by_contra hcon
    push_neg at hcon
    have h2le : (2 : ℤ) ≤ |z| := hcon
    have h2q : (2 : ℚ) ≤ |(z : ℚ)| := by exact_mod_cast h2le
    linarith
  have hq1 : |(z : ℚ)| ≤ 1 := by exact_mod_cast hz1
  linarith

/-- Claim C2 counterexample: at amount 8350.01 the recorded fees are
12.53 + 37.58 = 50.11, while `round(max(amount * 0.006, 50), 2)` =
`round(50.10006, 2)` = 50.10, so the claimed equation fails. -/
theorem claim2_counterexample :
    platform_fee (835001/100) = 1253/100
    ∧ agent_fee (835001/100) = 3758/100
    ∧ quantize2 (total_fee (835001/100)) = 5010/100
    ∧ platform_fee (835001/100) + agent_fee (835001/100)
        ≠ quantize2 (total_fee (835001/100)) := by
  have ht : total_fee (835001/100) = 5010006/100000 := by
    unfold total_fee
    rw [max_eq_left (by norm_num)]
    norm_num
  have hp : platform_fee (835001/100) = 1253/100 := by
    unfold platform_fee
    rw [ht]
    norm_num [quantize2, rhe]
  have ha : agent_fee (835001/100) = 3758/100 := by
    unfold agent_fee
    rw [ht]
    norm_num [quantize2, rhe]
  have hq : quantize2 (total_fee (835001/100)) = 5010/100 := by
    rw [ht]
    norm_num [quantize2, rhe]
  refine ⟨hp, ha, hq, ?_⟩
  rw [hp, ha, hq]
  norm_num

/-- Claim C3 (amended): for every amount of at least 50 (the minimum swap
amount enforced by the request form) the recorded fees satisfy
`platform_fee + agent_fee ≤ amount`. -/
theorem claim3_fee_invariant (amount : ℚ) (h : 50 ≤ amount) :
    platform_fee amount + agent_fee amount ≤ amount := by
  rcases le_or_lt (amount * (6/1000)) 50 with hle | hlt
  · have ht : total_fee amount = 50 := max_eq_right hle
    have hp : platform_fee amount = 25/2 := by
      unfold platform_fee
      rw [ht]
      norm_num [quantize2, rhe]
    have ha : agent_fee amount = 75/2 := by
      unfold agent_fee
      rw [ht]
      norm_num [quantize2, rhe]
    rw [hp, ha]
    linarith
  · have ht : total_fee amount = amount * (6/1000) := max_eq_left hlt.le
    have h1 := abs_quantize2_sub_le (total_fee amount * (25/100))
    have h2 := abs_quantize2_sub_le (total_fee amount * (75/100))
    rw [abs_le] at h1 h2
    unfold platform_fee agent_fee
    rw [ht] at *
    nlinarith [h1.2, h2.2]

/-- Witness for C3 at the concrete amount 1000, where the fee floor applies
and the recorded fees sum to 50, below the amount. -/
theorem claim3_fee_invariant_witness :
    (50 : ℚ) ≤ 1000 ∧ platform_fee 1000 + agent_fee 1000 ≤ 1000 :=
  ⟨by norm_num, claim3_fee_invariant 1000 (by norm_num)⟩

/-- The swap record produced by `create_swap` for a positive amount of 10:
its fees sum to 50, exceeding the amount. -/
def lowAmountSwap : SwapRec :=
  { client := 1
    agent := 2
    amount := 10
    from_service := "national_bank"
    to_service := "TNM"
    dest_number := "0881234567"
    status := .PENDING
    reference := "SWAPAAAAAAAA"
    platform_fee := 25/2
    agent_fee := 75/2
    created_at := 0
    agent_response_at := none }

/-- Claim C3 counterexample: `create_swap` accepts the positive amount 10
(it validates only agent availability and capacity), and the created swap
records fees 12.50 + 37.50 = 50 > 10, violating the claimed invariant. -/
theorem claim3_counterexample :
    create_swap 1 ⟨2, true, true⟩ 10 "national_bank" "TNM" "0881234567" "SWAPAAAAAAAA" 0
      = .ok lowAmountSwap
    ∧ (0 : ℚ) < lowAmountSwap.amount
    ∧ ¬(lowAmountSwap.platform_fee + lowAmountSwap.agent_fee ≤ lowAmountSwap.amount) := by
  refine ⟨?_, by norm_num [lowAmountSwap], by norm_num [lowAmountSwap]⟩
  have ht : total_fee 10 = 50 := by
    unfold total_fee
    rw [max_eq_right (by norm_num)]
  have hp : platform_fee 10 = 25/2 := by
    unfold platform_fee
    rw [ht]
    norm_num [quantize2, rhe]
  have ha : agent_fee 10 = 75/2 := by
    unfold agent_fee
    rw [ht]
    norm_num [quantize2, rhe]
  unfold create_swap
  simp [hp, ha, lowAmountSwap]

/-! ## Audit ledger (`swap_app/services/blockchain_service.py`) -/

/-- The `Block` model (`models.py`), restricted to the fields read by
`_verify_blockchain_integrity`.  Hash values are opaque hex strings. -/
structure Block where
  index : ℤ
  previous_hash : String
  block_hash : String
deriving DecidableEq, Repr

/-- The fixed genesis previous-hash `"0" * 64` (`blockchain_service.py`
lines 135 and 146). -/
def zero_hash : String := String.mk (List.replicate 64 '0')

/-- The loop body of `_verify_blockchain_integrity` (lines 165-176):
`previous_hash` carries the hash of the previous block, initially the
zero-hash; each block's stored `previous_hash` must match it. -/
def verifyFrom (prev : String) : List Block → Bool
  | [] => true
  | b :: bs => if b.previous_hash ≠ prev then false else verifyFrom b.block_hash bs

/-- `BlockchainService._verify_blockchain_integrity` (lines 165-176): walks
the blocks in ascending index order (`Block.objects.order_by('index')`,
here the list argument) starting from the zero-hash. -/
def verify_blockchain_integrity (blocks : List Block) : Bool :=
  verifyFrom zero_hash blocks

/-- The block written by `BlockchainService._create_genesis_block`
(lines 130-151): index 0, previous hash the zero-hash, and a SHA-256
content hash, which is opaque here and passed as an argument. -/
def genesis_block (contentHash : String) : Block :=
  { index := 0, previous_hash := zero_hash, block_hash := contentHash }

/-- An untouched chain hanging from hash `prev`: the first block's stored
`previous_hash` is `prev` and every later block stores the actual
`block_hash` of its predecessor. -/
inductive ChainFrom : String → List Block → Prop
  | nil (prev : String) : ChainFrom prev []
  | cons {prev : String} {b : Block} {bs : List Block}
      (hb : b.previous_hash = prev) (hrest : ChainFrom b.block_hash bs) :
      ChainFrom prev (b :: bs)

/-- An untouched chain: hangs from the 64-character zero-hash. -/
def Chain (blocks : List Block) : Prop := ChainFrom zero_hash blocks

theorem verifyFrom_of_chainFrom {prev : String} {blocks : List Block}
    (h : ChainFrom prev blocks) : verifyFrom prev blocks = true := by
  induction h with
  | nil => rfl
  | cons hb _ ih =>
    rw [verifyFrom]
    simp only [hb, ite_not]
    simpa using ih

theorem verifyFrom_tampered {prev : String} {blocks : List Block}
    (h : ChainFrom prev blocks) (i : ℕ) (hi : i < blocks.length) (newHash : String)
    (hne : newHash ≠ (blocks.get ⟨i, hi⟩).previous_hash) :
    verifyFrom prev
      (blocks.set i { blocks.get ⟨i, hi⟩ with previous_hash := newHash }) = false := by
  induction h generalizing i with
  | nil => simp at hi
  | @cons prev b bs hb hrest ih =>
    cases i with
    | zero =>
      simp only [List.get] at hne
      simp only [List.set, verifyFrom]
      rw [if_pos]
      simpa [hb] using hne
    | succ j =>
      have hj : j < bs.length := by simpa using hi
      simp only [List.get] at hne
      simp only [List.set, verifyFrom]
      rw [if_neg (by simp [hb])]
      exact ih j hj hne

/-- Claim C4: on every untouched chain (each block's `previous_hash` equals
the prior block's actual hash, the first hanging from the zero-hash) the
integrity check returns true; replacing any single block's `previous_hash`
by a differing value makes it return false; and a chain holding only a
freshly created genesis block, whose `previous_hash` is the 64-character
zero-hash, verifies to true whatever its content hash is. -/
theorem claim4_verify_integrity :
    (∀ blocks : List Block, Chain blocks →
      verify_blockchain_integrity blocks = true)
    ∧ (∀ (blocks : List Block), Chain blocks →
        ∀ (i : ℕ) (hi : i < blocks.length) (newHash : String),
        newHash ≠ (blocks.get ⟨i, hi⟩).previous_hash →
        verify_blockchain_integrity
          (blocks.set i { blocks.get ⟨i, hi⟩ with previous_hash := newHash }) = false)
    ∧ (∀ contentHash : String,
        verify_blockchain_integrity [genesis_block contentHash] = true
        ∧ (genesis_block contentHash).previous_hash = zero_hash
        ∧ zero_hash.length = 64) := by
  refine ⟨?_, ?_, ?_⟩
  · intro blocks h
    exact verifyFrom_of_chainFrom h
  · intro blocks h i hi newHash hne
    exact verifyFrom_tampered h i hi newHash hne
  · intro contentHash
    refine ⟨?_, rfl, by decide⟩
    simp [verify_blockchain_integrity, verifyFrom, genesis_block]

/-- Witness for C4 on a concrete two-block chain with a concrete tampering:
the untouched chain verifies, the chain with block 1's `previous_hash`
overwritten by "f" fails. -/
theorem claim4_verify_integrity_witness :
    verify_blockchain_integrity
      [{ index := 0, previous_hash := zero_hash, block_hash := "a1" },
       { index := 1, previous_hash := "a1", block_hash := "b2" }] = true
    ∧ verify_blockchain_integrity
      [{ index := 0, previous_hash := zero_hash, block_hash := "a1" },
       { index := 1, previous_hash := "f", block_hash := "b2" }] = false := by
  constructor
  · exact claim4_verify_integrity.1 _
      (ChainFrom.cons rfl (ChainFrom.cons rfl (ChainFrom.nil _)))
  · exact claim4_verify_integrity.2.1
      [{ index := 0, previous_hash := zero_hash, block_hash := "a1" },
       { index := 1, previous_hash := "a1", block_hash := "b2" }]
      (ChainFrom.cons rfl (ChainFrom.cons rfl (ChainFrom.nil _)))
      1 (by decide) "f" (by decide)

/-! ## Trust scoring (`swap_app/models.py`, `Agent`) -/

/-- The trust-scoring counters stored on `Agent` (`models.py` lines 86-102):
`total_swaps` stands for `self.swap_requests.count()` used by
`completion_rate`; `rating` and `response_time` are the stored defaults
returned when no ratings / responses have been recorded. -/
structure AgentStats where
  total_response_time : ℚ
  response_count : ℕ
  dispute_count : ℕ
  total_rating : ℚ
  rating_count : ℕ
  completed_swaps : ℕ
  total_swaps : ℕ
  rating : ℚ
  response_time : ℚ
deriving DecidableEq, Repr

/-- `Agent.average_response_time` (`models.py` lines 107-112), in minutes. -/
def average_response_time (s : AgentStats) : ℚ :=
  if s.response_count = 0 then s.response_time
  else (s.total_response_time / (s.response_count : ℚ)) / 60

/-- `Agent.completion_rate` (`models.py` lines 114-120). -/
def completion_rate (s : AgentStats) : ℚ :=
  if s.total_swaps = 0 then 100
  else ((s.completed_swaps : ℚ) / (s.total_swaps : ℚ)) * 100

/-- `Agent.average_rating` (`models.py` lines 122-127). -/
def average_rating (s : AgentStats) : ℚ :=
  if s.rating_count = 0 then s.rating
  else s.total_rating / (s.rating_count : ℚ)

/-- `Agent.experience_score` (`models.py` lines 129-134) over the reals:
0 when no completed swaps, else `min(100, log(completed+1)/log(51) * 100)`.
Because `math.log` is transcendental, `trust_score` below receives this
value as a parameter; this definition only pins down its range. -/
noncomputable def experience_score (completed : ℕ) : ℝ :=
  if completed = 0 then 0
  else min 100 (Real.log ((completed : ℝ) + 1) / Real.log 51 * 100)

theorem experience_score_mem (completed : ℕ) :
    0 ≤ experience_score completed ∧ experience_score completed ≤ 100 := by
  unfold experience_score
  split_ifs with h
  · norm_num
  · constructor
    · refine le_min (by norm_num) ?_
      refine mul_nonneg (div_nonneg ?_ ?_) (by norm_num)
      · exact Real.log_nonneg
          (by linarith [show (0:ℝ) ≤ (completed : ℝ) from Nat.cast_nonneg completed])
      · exact (Real.log_pos (by norm_num)).le
    · exact min_le_left _ _

/-- `Agent.trust_score` (`models.py` lines 136-171): weighted composite of
the response, completion, rating and experience scores, minus the dispute
penalty `min(20, dispute_count * 5)`, floored at 0 and rounded to one
decimal place.  `experience` is the value of `experience_score
s.completed_swaps`. -/
def trust_score (s : AgentStats) (experience : ℚ) : ℚ :=
  pyRound1 (max 0
    (min 100 (max 0 (100 - average_response_time s * 2)) * (2/10)
      + completion_rate s * (3/10)
      + average_rating s / 5 * 100 * (3/10)
      + experience * (2/10)
      - min 20 ((s.dispute_count : ℚ) * 5)))

theorem pyRound1_zero : pyRound1 0 = 0 := by norm_num [pyRound1, rhe]

theorem pyRound1_hundred : pyRound1 100 = 100 := by norm_num [pyRound1, rhe]

/-- `trust_score` after overriding only the dispute counter, spelled out;
holds by definitional unfolding of the record update. -/
theorem trust_score_dispute_eq (s : AgentStats) (e : ℚ) (d : ℕ) :
    trust_score { s with dispute_count := d } e
      = pyRound1 (max 0
          (min 100 (max 0 (100 - average_response_time s * 2)) * (2/10)
            + completion_rate s * (3/10)
            + average_rating s / 5 * 100 * (3/10)
            + e * (2/10)
            - min 20 ((d : ℚ) * 5))) := rfl

/-- Claim C5 (amended): provided the agent's average rating lies in [0, 5]
and its completed-swap count does not exceed its total swap count (both
hold for counters maintained by the application, but not for arbitrary
non-negative stored values), the trust score lies in [0, 100]; and, with no
side condition at all, the trust score is monotonically non-increasing in
the dispute count, all other stats held fixed.  `e` stands for the
experience score, which lies in [0, 100] by `experience_score_mem`. -/
theorem claim5_trust_score (s : AgentStats) (e : ℚ) :
    (0 ≤ average_rating s → average_rating s ≤ 5 →
      s.completed_swaps ≤ s.total_swaps → 0 ≤ e → e ≤ 100 →
      0 ≤ trust_score s e ∧ trust_score s e ≤ 100)
    ∧ ∀ d1 d2 : ℕ, d1 ≤ d2 →
        trust_score { s with dispute_count := d2 } e
          ≤ trust_score { s with dispute_count := d1 } e := by
  constructor
  · intro hrat0 hrat5 hcomp _he0 he1
    have hresp0 : 0 ≤ min 100 (max 0 (100 - average_response_time s * 2)) :=
      le_min (by norm_num) (le_max_left 0 _)
    have hresp1 : min 100 (max 0 (100 - average_response_time s * 2)) ≤ 100 :=
      min_le_left _ _
    have hcomp0 : 0 ≤ completion_rate s := by
      unfold completion_rate
      split_ifs
      · norm_num
      · positivity
    have hcomp1 : completion_rate s ≤ 100 := by
      unfold completion_rate
      split_ifs with h
      · norm_num
      · have hpos : (0 : ℚ) < (s.total_swaps : ℚ) := by
          exact_mod_cast Nat.pos_of_ne_zero h
        have hle : (s.completed_swaps : ℚ) ≤ (s.total_swaps : ℚ) := by
          exact_mod_cast hcomp
        have hdiv : (s.completed_swaps : ℚ) / (s.total_swaps : ℚ) ≤ 1 :=
          (div_le_one hpos).mpr hle
        linarith
    have hrate0 : 0 ≤ average_rating s / 5 * 100 := by positivity
    have hrate1 : average_rating s / 5 * 100 ≤ 100 := by
      have : average_rating s / 5 ≤ 1 := by linarith
      linarith
    have hpen0 : 0 ≤ min 20 ((s.dispute_count : ℚ) * 5) :=
      le_min (by norm_num) (by positivity)
    have hinner0 : (0 : ℚ) ≤ max 0
        (min 100 (max 0 (100 - average_response_time s * 2)) * (2/10)
          + completion_rate s * (3/10) + average_rating s / 5 * 100 * (3/10)
          + e * (2/10) - min 20 ((s.dispute_count : ℚ) * 5)) := le_max_left 0 _
    have hinner1 : max 0
        (min 100 (max 0 (100 - average_response_time s * 2)) * (2/10)
          + completion_rate s * (3/10) + average_rating s / 5 * 100 * (3/10)
          + e * (2/10) - min 20 ((s.dispute_count : ℚ) * 5)) ≤ 100 :=
      max_le (by norm_num) (by linarith)
    constructor
    · calc (0 : ℚ) = pyRound1 0 := pyRound1_zero.symm
        _ ≤ trust_score s e := pyRound1_mono hinner0
    · calc trust_score s e ≤ pyRound1 100 := pyRound1_mono hinner1
        _ = 100 := pyRound1_hundred
  · intro d1 d2 hd
    rw [trust_score_dispute_eq, trust_score_dispute_eq]
    apply pyRound1_mono
    apply max_le_max le_rfl
    have hdq : (d1 : ℚ) ≤ (d2 : ℚ) := by exact_mod_cast hd
    have hpen : min 20 ((d1 : ℚ) * 5) ≤ min 20 ((d2 : ℚ) * 5) :=
      min_le_min le_rfl (by linarith)
    linarith

/-- Fresh-agent stats: all counters zero, stored defaults `rating = 5.0`
and `response_time = 15`. -/
def defaultStats : AgentStats :=
  { total_response_time := 0, response_count := 0, dispute_count := 0
    total_rating := 0, rating_count := 0, completed_swaps := 0
    total_swaps := 0, rating := 5, response_time := 15 }

/-- Witness for C5 on fresh-agent stats with experience 0: score in range
and non-increasing from 1 dispute to 3 disputes. -/
theorem claim5_trust_score_witness :
    0 ≤ trust_score defaultStats 0 ∧ trust_score defaultStats 0 ≤ 100
    ∧ trust_score { defaultStats with dispute_count := 3 } 0
        ≤ trust_score { defaultStats with dispute_count := 1 } 0 := by
  have h := claim5_trust_score defaultStats 0
  have hr := h.1 (by norm_num [average_rating, defaultStats])
    (by norm_num [average_rating, defaultStats])
    (by norm_num [defaultStats])
    (by norm_num) (by norm_num)
  exact ⟨hr.1, hr.2, h.2 1 3 (by norm_num)⟩

/-- Stats whose stored values are all non-negative but with an average
rating of 1000 (rating sum 1000 over one rating): the weighted composite
explodes past 100. -/
def inflatedStats : AgentStats :=
  { total_response_time := 0, response_count := 0, dispute_count := 0
    total_rating := 1000, rating_count := 1, completed_swaps := 0
    total_swaps := 0, rating := 5, response_time := 15 }

/-- Claim C5 counterexample: for the non-negative stats `inflatedStats`
(experience score 0, since no swap was completed) the trust score
evaluates to 6044, far outside [0, 100]. -/
theorem claim5_counterexample :
    trust_score inflatedStats 0 = 6044 ∧ ¬(trust_score inflatedStats 0 ≤ 100) := by
  have h1 : average_response_time inflatedStats = 15 := by
    norm_num [average_response_time, inflatedStats]
  have h2 : completion_rate inflatedStats = 100 := by
    norm_num [completion_rate, inflatedStats]
  have h3 : average_rating inflatedStats = 1000 := by
    norm_num [average_rating, inflatedStats]
  have hv : trust_score inflatedStats 0 = 6044 := by
    unfold trust_score
    rw [h1, h2, h3]
    norm_num [min_def, max_def, inflatedStats, pyRound1, rhe]
  exact ⟨hv, by rw [hv]; norm_num⟩

/-! ## Timeout sweep (`swap_app/tasks.py`, `auto_reject_expired_requests`) -/

/-- A notification row created by the sweep (`Notification.objects.create`
with `type='system'`). -/
structure NotificationRec where
  user : ℕ
  message : String
deriving DecidableEq, Repr

/-- The message written by `auto_reject_expired_requests` (line 81). -/
def expiredMessage : String := "Swap request expired - agent didn't respond in time"

/-- Whether a swap is selected by the sweep's queryset
`filter(status='PENDING', created_at__lt=now - 30 minutes)`.  Times are in
seconds. -/
def sweepSelects (now : ℤ) (s : SwapRec) : Bool :=
  s.status = Status.PENDING && s.created_at < now - 30 * 60

/-- Per-swap action of `auto_reject_expired_requests` (lines 72-74):
selected swaps get status `EXPIRED`, others are untouched. -/
def sweepStep (now : ℤ) (s : SwapRec) : SwapRec :=
  if sweepSelects now s then { s with status := .EXPIRED } else s

/-- `auto_reject_expired_requests` (`tasks.py` lines 63-84): returns the
swap table after the sweep and the client notifications it creates. -/
def auto_reject_expired_requests (now : ℤ) (swaps : List SwapRec) :
    List SwapRec × List NotificationRec :=
  (swaps.map (sweepStep now),
   (swaps.filter (sweepSelects now)).map
      (fun s => { user := s.client, message := expiredMessage }))

/-- Claim C8: on every sweep at time `now`, every `PENDING` swap created
strictly more than 30 minutes earlier is transitioned to `EXPIRED` and a
client notification is created for it, while every `PENDING` swap created
30 minutes ago or less is left in the list unchanged, still `PENDING`. -/
theorem claim8_expiry_sweep (now : ℤ) (swaps : List SwapRec) (s : SwapRec)
    (hs : s ∈ swaps) :
    (s.status = Status.PENDING → 30 * 60 < now - s.created_at →
      { s with status := Status.EXPIRED } ∈ (auto_reject_expired_requests now swaps).1
      ∧ ({ user := s.client, message := expiredMessage } : NotificationRec)
          ∈ (auto_reject_expired_requests now swaps).2)
    ∧ (s.status = Status.PENDING → now - s.created_at ≤ 30 * 60 →
      s ∈ (auto_reject_expired_requests now swaps).1
      ∧ s.status = Status.PENDING) := by
  constructor
  · intro hp hold
    have hsel : sweepSelects now s = true := by
      simp only [sweepSelects, hp, decide_True, Bool.true_and, decide_eq_true_eq]
      omega
    constructor
    · have : sweepStep now s = { s with status := Status.EXPIRED } := by
        simp [sweepStep, hsel]
      exact this ▸ List.mem_map_of_mem (sweepStep now) hs
    · exact List.mem_map_of_mem _ (List.mem_filter.mpr ⟨hs, hsel⟩)
  · intro hp hyoung
    have hsel : sweepSelects now s = false := by
      simp only [sweepSelects, hp, decide_True, Bool.true_and]
      simp only [decide_eq_false_iff_not]
      omega
    have : sweepStep now s = s := by simp [sweepStep, hsel]
    exact ⟨this ▸ List.mem_map_of_mem (sweepStep now) hs, hp⟩

/-- A `PENDING` swap created 31 minutes before time 0. -/
def pendingSwap31 : SwapRec :=
  { lowAmountSwap with amount := 1000, created_at := -31 * 60, reference := "SWAPBBBBBBBB" }

/-- A `PENDING` swap created 10 minutes before time 0. -/
def pendingSwap10 : SwapRec :=
  { lowAmountSwap with amount := 1000, created_at := -10 * 60, reference := "SWAPCCCCCCCC" }

/-- Witness for C8 at `now = 0` on the two concrete swaps of the claim: the
31-minute-old one expires (and its client is notified), the 10-minute-old
one stays `PENDING`. -/
theorem claim8_expiry_sweep_witness :
    ({ pendingSwap31 with status := Status.EXPIRED }
        ∈ (auto_reject_expired_requests 0 [pendingSwap31, pendingSwap10]).1
      ∧ ({ user := pendingSwap31.client, message := expiredMessage } : NotificationRec)
          ∈ (auto_reject_expired_requests 0 [pendingSwap31, pendingSwap10]).2)
    ∧ pendingSwap10 ∈ (auto_reject_expired_requests 0 [pendingSwap31, pendingSwap10]).1 := by
  have h31 := claim8_expiry_sweep 0 [pendingSwap31, pendingSwap10] pendingSwap31
    (by simp)
  have h10 := claim8_expiry_sweep 0 [pendingSwap31, pendingSwap10] pendingSwap10
    (by simp)
  exact ⟨h31.1 rfl (by norm_num [pendingSwap31, lowAmountSwap]),
    (h10.2 rfl (by norm_num [pendingSwap10, lowAmountSwap])).1⟩

/-! ## Recommendation scoring
(`swap_app/services/recommendation_service.py`) -/

/-- `RecommendationService._calculate_proximity_score` (lines 80-101):
neutral 50 when either party lacks geolocation, otherwise a step function
of the great-circle distance in km (computed by the haversine
`LocationService.calculate_distance`, here passed as an argument). -/
def calculate_proximity_score (clientHasLoc agentHasLoc : Bool)
    (distance_km : ℚ) : ℚ :=
  if ¬clientHasLoc ∨ ¬agentHasLoc then 50
  else if distance_km ≤ 1 then 100
  else if distance_km ≤ 5 then 80
  else if distance_km ≤ 10 then 60
  else if distance_km ≤ 20 then 40
  else 20

/-- `RecommendationService._calculate_combined_score` (lines 123-138). -/
def calculate_combined_score (trust proximity availability service : ℚ) : ℚ :=
  trust * (4/10) + proximity * (3/10) + availability * (2/10) + service * (1/10)

/-- A scored agent entry as produced by `_calculate_agent_scores`,
restricted to what the final sort consults. -/
structure ScoredAgent where
  agentId : ℕ
  recommendation_score : ℚ
deriving DecidableEq, Repr

/-- Insertion into a descending list: the element goes after every already
placed element whose score is at least as high.  On strictly distinct
scores this agrees with Python's `list.sort(key=..., reverse=True)`; the
placement among equal scores differs from Python's stable sort and is not
relied on by any theorem below. -/
def insertDesc (x : ScoredAgent) : List ScoredAgent → List ScoredAgent
  | [] => [x]
  | y :: ys =>
    if y.recommendation_score < x.recommendation_score then x :: y :: ys
    else y :: insertDesc x ys

/-- Descending insertion sort by `recommendation_score`, modelling step 3
of `find_recommended_agents` (line 31) on strictly distinct scores. -/
def sortByScoreDesc : List ScoredAgent → List ScoredAgent
  | [] => []
  | x :: xs => insertDesc x (sortByScoreDesc xs)

/-- Claim C9: for two candidate agents with identical trust, availability
and service scores, both parties having geolocation, at distances 1 km and
15 km, the proximity scores are 100 and 40, the closer agent's combined
score `0.4*trust + 0.3*proximity + 0.2*availability + 0.1*service` is
strictly higher, and the recommendation sort orders the closer agent
first even when it starts behind. -/
theorem claim9_closer_agent_wins (trust availability service : ℚ)
    (idClose idFar : ℕ) :
    calculate_proximity_score true true 1 = 100
    ∧ calculate_proximity_score true true 15 = 40
    ∧ calculate_combined_score trust (calculate_proximity_score true true 15)
          availability service
        < calculate_combined_score trust (calculate_proximity_score true true 1)
          availability service
    ∧ sortByScoreDesc
        [⟨idFar, calculate_combined_score trust (calculate_proximity_score true true 15)
            availability service⟩,
         ⟨idClose, calculate_combined_score trust (calculate_proximity_score true true 1)
            availability service⟩]
      = [⟨idClose, calculate_combined_score trust (calculate_proximity_score true true 1)
            availability service⟩,
         ⟨idFar, calculate_combined_score trust (calculate_proximity_score true true 15)
            availability service⟩] := by
  have hclose : calculate_proximity_score true true 1 = 100 := by
    norm_num [calculate_proximity_score]
  have hfar : calculate_proximity_score true true 15 = 40 := by
    norm_num [calculate_proximity_score]
  have hlt : calculate_combined_score trust 40 availability service
      < calculate_combined_score trust 100 availability service := by
    unfold calculate_combined_score
    linarith
  refine ⟨hclose, hfar, by rw [hclose, hfar]; exact hlt, ?_⟩
  rw [hclose, hfar]
  simp only [sortByScoreDesc, insertDesc]
  rw [if_neg (lt_asymm hlt)]

/-! ## Proof validation (`swap_app/services/proof_parser.py`,
`ProofParser.validate_proof`) -/

/-- The `ProofUpload` fields read by `validate_proof` (`models.py`):
`extracted_amount` is nullable; `confidence_score` is the stored float. -/
structure ProofRec where
  extracted_amount : Option ℚ
  extracted_reference : String
  confidence_score : ℚ
deriving DecidableEq, Repr

/-- The error/warning strings appended by `validate_proof`, with the
interpolated values carried as constructor arguments (the Python code
builds f-strings over the same data). -/
inductive VMsg
  | smallAmountDiff (proofAmount swapAmount : ℚ)
  | amountMismatch (proofAmount swapAmount : ℚ)
  | couldNotExtractAmount
  | referenceMismatch (proofReference swapReference : String)
  | lowConfidence (confidence : ℚ)
  | moderateConfidence (confidence : ℚ)
deriving DecidableEq, Repr

/-- The bank services for which the reference check applies
(`proof_parser.py` line 148). -/
def bank_services : List String :=
  ["national_bank", "standard_bank", "fdh_bank", "nedbank"]

/-- The amount check of `validate_proof` (lines 136-145): first component
errors, second warnings.  `if proof.extracted_amount:` is Python
truthiness, so both a missing and a zero amount take the warning branch. -/
def amount_msgs (proof : ProofRec) (swap : SwapRec) : List VMsg × List VMsg :=
  match proof.extracted_amount with
  | none => ([], [VMsg.couldNotExtractAmount])
  | some a =>
    if a = 0 then ([], [VMsg.couldNotExtractAmount])
    else if a = swap.amount then ([], [])
    else if |a - swap.amount| ≤ 1 then ([], [VMsg.smallAmountDiff a swap.amount])
    else ([VMsg.amountMismatch a swap.amount], [])

/-- The bank-reference check of `validate_proof` (lines 147-151). -/
def reference_msgs (proof : ProofRec) (swap : SwapRec) : List VMsg :=
  if swap.from_service ∈ bank_services ∧ proof.extracted_reference ≠ ""
      ∧ proof.extracted_reference ≠ swap.reference
  then [VMsg.referenceMismatch proof.extracted_reference swap.reference]
  else []

/-- The confidence check of `validate_proof` (lines 153-157). -/
def confidence_msgs (proof : ProofRec) : List VMsg :=
  if proof.confidence_score < 1/2 then [VMsg.lowConfidence proof.confidence_score]
  else if proof.confidence_score < 8/10 then
    [VMsg.moderateConfidence proof.confidence_score]
  else []

/-- `ProofParser.validate_proof` (lines 127-159): returns
`(is_valid, errors, warnings)` with `is_valid = (len(errors) == 0)`. -/
def validate_proof (proof : ProofRec) (swap : SwapRec) :
    Bool × List VMsg × List VMsg :=
  ((amount_msgs proof swap).1.isEmpty,
   (amount_msgs proof swap).1,
   (amount_msgs proof swap).2 ++ reference_msgs proof swap ++ confidence_msgs proof)

/-- The errors list emitted by `validate_proof` can only ever hold
amount-mismatch entries: the reference and confidence checks append to
warnings only. -/
theorem amount_msgs_fst_cases (proof : ProofRec) (swap : SwapRec) :
    (amount_msgs proof swap).1 = []
    ∨ (amount_msgs proof swap).1
        = [VMsg.amountMismatch ((proof.extracted_amount).getD 0) swap.amount] := by
  unfold amount_msgs
  rcases hp : proof.extracted_amount with _ | a
  · exact Or.inl rfl
  · dsimp only
    split_ifs
    · exact Or.inl rfl
    · exact Or.inl rfl
    · exact Or.inl rfl
    · right
      rfl

/-- Claim C7: `validate_proof` returns `(isValid, errors, warnings)` with
`isValid` true iff `errors` is empty; an exact amount match contributes no
message at all; a non-zero difference of at most one currency unit
contributes only a warning; a larger difference contributes the single
error; a reference mismatch on a bank-sourced swap contributes a warning
while errors can only ever be amount-mismatch errors; and confidence below
0.5, or in [0.5, 0.8), contributes the graduated warning. -/
theorem claim7_validate_proof (proof : ProofRec) (swap : SwapRec) :
    ((validate_proof proof swap).1 = true ↔ (validate_proof proof swap).2.1 = [])
    ∧ (∀ a : ℚ, proof.extracted_amount = some a → a ≠ 0 → a = swap.amount →
        (validate_proof proof swap).2.1 = []
        ∧ (∀ x y : ℚ, VMsg.smallAmountDiff x y ∉ (validate_proof proof swap).2.2)
        ∧ VMsg.couldNotExtractAmount ∉ (validate_proof proof swap).2.2)
    ∧ (∀ a : ℚ, proof.extracted_amount = some a → a ≠ 0 → a ≠ swap.amount →
        |a - swap.amount| ≤ 1 →
        (validate_proof proof swap).2.1 = []
        ∧ VMsg.smallAmountDiff a swap.amount ∈ (validate_proof proof swap).2.2)
    ∧ (∀ a : ℚ, proof.extracted_amount = some a → a ≠ 0 → 1 < |a - swap.amount| →
        (validate_proof proof swap).2.1 = [VMsg.amountMismatch a swap.amount]
        ∧ (validate_proof proof swap).1 = false)
    ∧ (swap.from_service ∈ bank_services → proof.extracted_reference ≠ "" →
        proof.extracted_reference ≠ swap.reference →
        VMsg.referenceMismatch proof.extracted_reference swap.reference
          ∈ (validate_proof proof swap).2.2)
    ∧ (∀ m ∈ (validate_proof proof swap).2.1, ∃ x y, m = VMsg.amountMismatch x y)
    ∧ (proof.confidence_score < 1/2 →
        VMsg.lowConfidence proof.confidence_score ∈ (validate_proof proof swap).2.2)
    ∧ (1/2 ≤ proof.confidence_score → proof.confidence_score < 8/10 →
        VMsg.moderateConfidence proof.confidence_score
          ∈ (validate_proof proof swap).2.2) := by
  have hrw : ∀ m : VMsg, m ∈ reference_msgs proof swap →
      ∃ r1 r2, m = VMsg.referenceMismatch r1 r2 := by
    intro m hm
    unfold reference_msgs at hm
    split_ifs at hm
    · simp at hm
      exact ⟨_, _, hm⟩
    · simp at hm
  have hcw : ∀ m : VMsg, m ∈ confidence_msgs proof →
      (∃ c, m = VMsg.lowConfidence c) ∨ ∃ c, m = VMsg.moderateConfidence c := by
    intro m hm
    unfold confidence_msgs at hm
    split_ifs at hm <;> simp at hm
    · exact Or.inl ⟨_, hm⟩
    · exact Or.inr ⟨_, hm⟩
  refine ⟨?_, ?_, ?_, ?_, ?_, ?_, ?_, ?_⟩
  · simp [validate_proof, List.isEmpty_iff]
  · intro a ha hz he
    have hz2 : swap.amount ≠ 0 := he ▸ hz
    have hmsgs : amount_msgs proof swap = ([], []) := by
      simp [amount_msgs, ha, hz, hz2, he]
    have hw : (validate_proof proof swap).2.2
        = reference_msgs proof swap ++ confidence_msgs proof := by
      simp [validate_proof, hmsgs]
    refine ⟨by simp [validate_proof, hmsgs], ?_, ?_⟩
    · intro x y hmem
      rw [hw, List.mem_append] at hmem
      rcases hmem with hmem | hmem
      · obtain ⟨r1, r2, hr⟩ := hrw _ hmem
        exact VMsg.noConfusion hr
      · rcases hcw _ hmem with ⟨c, hc⟩ | ⟨c, hc⟩ <;> exact VMsg.noConfusion hc
    · intro hmem
      rw [hw, List.mem_append] at hmem
      rcases hmem with hmem | hmem
      · obtain ⟨r1, r2, hr⟩ := hrw _ hmem
        exact VMsg.noConfusion hr
      · rcases hcw _ hmem with ⟨c, hc⟩ | ⟨c, hc⟩ <;> exact VMsg.noConfusion hc
  · intro a ha hz hne hle
    have hmsgs : amount_msgs proof swap
        = ([], [VMsg.smallAmountDiff a swap.amount]) := by
      simp [amount_msgs, ha, hz, hne, hle]
    exact ⟨by simp [validate_proof, hmsgs], by simp [validate_proof, hmsgs]⟩
  · intro a ha hz hgt
    have hne : a ≠ swap.amount := by
      intro he
      rw [he, sub_self, abs_zero] at hgt
      linarith
    have hmsgs : amount_msgs proof swap
        = ([VMsg.amountMismatch a swap.amount], []) := by
      simp [amount_msgs, ha, hz, hne, not_le.mpr hgt]
    exact ⟨by simp [validate_proof, hmsgs], by simp [validate_proof, hmsgs]⟩
  · intro hbank href hrefne
    have hr : reference_msgs proof swap
        = [VMsg.referenceMismatch proof.extracted_reference swap.reference] := by
      unfold reference_msgs
      rw [if_pos ⟨hbank, href, hrefne⟩]
    simp [validate_proof, hr]
  · intro m hm
    have he : (validate_proof proof swap).2.1 = (amount_msgs proof swap).1 := rfl
    rw [he] at hm
    rcases amount_msgs_fst_cases proof swap with h | h <;> rw [h] at hm
    · simp at hm
    · simp at hm
      exact ⟨_, _, hm⟩
  · intro hlow
    have hc : confidence_msgs proof
        = [VMsg.lowConfidence proof.confidence_score] := by
      unfold confidence_msgs
      rw [if_pos hlow]
    simp [validate_proof, hc]
  · intro h1 h2
    have hc : confidence_msgs proof
        = [VMsg.moderateConfidence proof.confidence_score] := by
      unfold confidence_msgs
      rw [if_neg (not_lt.mpr h1), if_pos h2]
    simp [validate_proof, hc]

/-- A concrete proof for the C7 witness: amount 1000, reference "REFX",
confidence 0.9. -/
def proofExample : ProofRec :=
  { extracted_amount := some 1000, extracted_reference := "REFX",
    confidence_score := 9/10 }

/-- A concrete bank-sourced swap of amount 1000.50 for the C7 witness. -/
def proofSwapExample : SwapRec :=
  { client := 1
    agent := 2
    amount := 2001/2
    from_service := "national_bank"
    to_service := "TNM"
    dest_number := "0881234567"
    status := .ACCEPTED
    reference := "SWAPDDDDDDDD"
    platform_fee := 0
    agent_fee := 0
    created_at := 0
    agent_response_at := some 60 }

/-- Witness for C7 at a concrete proof and swap: amount off by 0.5 (warning
only, no error) and a bank reference mismatch (warning). -/
theorem claim7_validate_proof_witness :
    (validate_proof proofExample proofSwapExample).2.1 = []
    ∧ VMsg.smallAmountDiff 1000 proofSwapExample.amount
        ∈ (validate_proof proofExample proofSwapExample).2.2
    ∧ VMsg.referenceMismatch "REFX" "SWAPDDDDDDDD"
        ∈ (validate_proof proofExample proofSwapExample).2.2 := by
  have h := claim7_validate_proof proofExample proofSwapExample
  obtain ⟨hsmall1, hsmall2⟩ := h.2.2.1 1000 rfl (by norm_num)
    (by norm_num [proofSwapExample])
    (by rw [show |(1000 : ℚ) - proofSwapExample.amount| = 1/2 by
          norm_num [proofSwapExample]]
        norm_num)
  have href := h.2.2.2.2.1 (by norm_num [proofSwapExample, bank_services])
    (by decide) (by decide)
  exact ⟨hsmall1, hsmall2, href⟩

/-- Claim C10: whenever the extracted amount is absent or zero (Python
falsiness of `proof.extracted_amount`), `validate_proof` produces no error
at all — only the could-not-extract warning — and therefore returns
`isValid = true`, whatever the reference and confidence fields hold. -/
theorem claim10_falsy_amount_valid (proof : ProofRec) (swap : SwapRec)
    (h : proof.extracted_amount = none ∨ proof.extracted_amount = some 0) :
    (validate_proof proof swap).1 = true
    ∧ (validate_proof proof swap).2.1 = []
    ∧ VMsg.couldNotExtractAmount ∈ (validate_proof proof swap).2.2 := by
  have hmsgs : amount_msgs proof swap = ([], [VMsg.couldNotExtractAmount]) := by
    rcases h with h | h <;> simp [amount_msgs, h]
  refine ⟨?_, ?_, ?_⟩ <;> simp [validate_proof, hmsgs]

/-- Witness for C10: a proof with a zero extracted amount, a mismatching
reference and rock-bottom confidence still validates. -/
theorem claim10_falsy_amount_valid_witness :
    (validate_proof
        { extracted_amount := some 0, extracted_reference := "WRONG",
          confidence_score := 0 } lowAmountSwap).1 = true
    ∧ (validate_proof
        { extracted_amount := some 0, extracted_reference := "WRONG",
          confidence_score := 0 } lowAmountSwap).2.1 = []
    ∧ VMsg.couldNotExtractAmount
        ∈ (validate_proof
            { extracted_amount := some 0, extracted_reference := "WRONG",
              confidence_score := 0 } lowAmountSwap).2.2 :=
  claim10_falsy_amount_valid
    { extracted_amount := some 0, extracted_reference := "WRONG",
      confidence_score := 0 } lowAmountSwap (Or.inr rfl)

/-! ## SMS proof parsing (`swap_app/services/proof_parser.py`,
`ProofParser.parse_sms`)

The provider templates are Python regular expressions built from literals,
`\s*`, the amount group `([\d,]+\.\d{2})`, `(\d+)`, `(\w+)`, lazy `(.+?)`
and greedy `(.+)`.  They are embedded as token lists and matched by a small
backtracking engine with `re.search` semantics: leftmost starting position
wins, greedy pieces try longest first, the lazy piece shortest first. -/

/-- Python `\s` (ASCII): space, tab, newline, carriage return, vertical tab
and form feed. -/
def isWsChar (c : Char) : Bool :=
  c = ' ' || c = '\t' || c = '\n' || c = '\r' || c = Char.ofNat 11 || c = Char.ofNat 12

/-- The character class `[\d,]`. -/
def isAmtChar (c : Char) : Bool := c.isDigit || c = ','

/-- Python `\w` (ASCII): letters, digits and underscore. -/
def isWordChar (c : Char) : Bool := c.isAlpha || c.isDigit || c = '_'

/-- Python `.`: any character except a newline. -/
def isAnyChar (c : Char) : Bool := c != '\n'

/-- One token of the `parse_sms` regular-expression templates. -/
inductive RTok
  | lit (s : List Char)
  | ws
  | amt
  | digitsG
  | wordG
  | anyLazy
  | anyGreedy
deriving DecidableEq, Repr

/-- Remaining-input candidates when matching one token at the head of the
input, in Python-regex backtracking priority order (greedy pieces longest
first, the lazy piece shortest first), each paired with the groups the
token captures. -/
def tokOptions : RTok → List Char → List (List (List Char) × List Char)
  | .lit s, input =>
    if s.isPrefixOf input then [([], input.drop s.length)] else []
  | .ws, input =>
    (List.range ((input.takeWhile isWsChar).length + 1)).reverse.map
      (fun k => ([], input.drop k))
  | .amt, input =>
    ((List.range (input.takeWhile isAmtChar).length).reverse.map
        (fun j => j + 1)).filterMap (fun k =>
      match input.drop k with
      | c :: d1 :: d2 :: rest =>
        if c = '.' && d1.isDigit && d2.isDigit then
          some ([input.take (k + 3)], rest)
        else none
      | _ => none)
  | .digitsG, input =>
    ((List.range (input.takeWhile Char.isDigit).length).reverse.map
        (fun j => j + 1)).map (fun k => ([input.take k], input.drop k))
  | .wordG, input =>
    ((List.range (input.takeWhile isWordChar).length).reverse.map
        (fun j => j + 1)).map (fun k => ([input.take k], input.drop k))
  | .anyLazy, input =>
    ((List.range (input.takeWhile isAnyChar).length).map
        (fun j => j + 1)).map (fun k => ([input.take k], input.drop k))
  | .anyGreedy, input =>
    ((List.range (input.takeWhile isAnyChar).length).reverse.map
        (fun j => j + 1)).map (fun k => ([input.take k], input.drop k))

/-- Match a token list against a prefix of the input (the remainder is
unconstrained, as with `re.search`), returning the captured groups of the
first successful backtracking branch: the head token's options are tried
in priority order.  The fuel decreases once per token, so `length + 1`
always suffices. -/
def matchToks : ℕ → List RTok → List Char → Option (List (List Char))
  | _, [], _ => some []
  | 0, _ :: _, _ => none
  | fuel + 1, t :: ts, input =>
    (tokOptions t input).findSome? (fun p => (matchToks fuel ts p.2).map (p.1 ++ ·))

/-- `re.search`: try the match at each starting position, leftmost first
(the position past the last character included). -/
def reSearch (toks : List RTok) : List Char → Option (List (List Char))
  | [] => matchToks (toks.length + 1) toks []
  | c :: rest =>
    match matchToks (toks.length + 1) toks (c :: rest) with
    | some gs => some gs
    | none => reSearch toks rest

/-- Shorthand for a literal token. -/
def litT (s : String) : RTok := .lit s.data

/-- The provider families of `parse_sms`. -/
inductive Provider
  | mo626
  | tnm
  | airtel
  | standard_bank
deriving DecidableEq, Repr

/-- The Mo626 (National Bank) templates (`proof_parser.py` lines 19-23). -/
def mo626_patterns : List (List RTok) :=
  [[litT "RECEIVED MWK", .ws, .amt, .ws, litT "FROM", .ws, .anyLazy, litT ".",
      .ws, litT "REF:", .ws, .wordG],
   [litT "DEPOSITED MWK", .ws, .amt, .ws, litT "INTO YOUR ACCOUNT.", .ws,
      litT "REF:", .ws, .wordG],
   [litT "TRANSACTION:", .ws, litT "MWK", .ws, .amt, .ws, litT "REF:", .ws,
      .wordG, .ws, litT "FROM", .ws, .anyGreedy]]

/-- The TNM Mpamba templates (lines 26-29). -/
def tnm_patterns : List (List RTok) :=
  [[litT "RECEIVED K", .ws, .amt, .ws, litT "FROM", .ws, .digitsG, litT ".",
      .ws, litT "TXN ID:", .ws, .wordG],
   [litT "SENT K", .ws, .amt, .ws, litT "TO", .ws, .digitsG, litT ".",
      .ws, litT "TXN ID:", .ws, .wordG]]

/-- The Airtel Money templates (lines 32-35). -/
def airtel_patterns : List (List RTok) :=
  [[litT "RECEIVED", .ws, .amt, .ws, litT "FROM", .ws, .digitsG, litT ".",
      .ws, litT "REF:", .ws, .wordG],
   [litT "SENT", .ws, .amt, .ws, litT "TO", .ws, .digitsG, litT ".",
      .ws, litT "REF:", .ws, .wordG]]

/-- The Standard Bank templates (lines 38-41). -/
def standard_bank_patterns : List (List RTok) :=
  [[litT "CREDIT", .ws, litT "MWK", .ws, .amt, .ws, litT "FROM", .ws, .anyLazy,
      .ws, litT "REF:", .ws, .wordG],
   [litT "DEPOSIT", .ws, litT "MWK", .ws, .amt, .ws, litT "REF:", .ws, .wordG]]

/-- `all_patterns = mo626 + tnm + airtel + standard_bank` (line 43), each
tagged with its provider family (the Python code recovers the family by
list membership of the matched pattern). -/
def all_patterns : List (Provider × List RTok) :=
  mo626_patterns.map (fun p => (Provider.mo626, p))
    ++ tnm_patterns.map (fun p => (Provider.tnm, p))
    ++ airtel_patterns.map (fun p => (Provider.airtel, p))
    ++ standard_bank_patterns.map (fun p => (Provider.standard_bank, p))

/-- Decimal digits to a natural number. -/
def digitsToNat (cs : List Char) : ℕ :=
  cs.foldl (fun n c => 10 * n + (c.toNat - 48)) 0

/-- `Decimal(amount_str.replace(',', ''))` for the strings produced by the
amount group: strip commas, then integer part, dot, fraction digits; the
value is `intPart + fracPart / 10 ^ fracDigits`, built with `mkRat` so that
it evaluates inside the kernel. -/
def parseDecimal (cs : List Char) : ℚ :=
  let cs2 := cs.filter (fun c => c != ',')
  let ip := cs2.takeWhile (fun c => c != '.')
  let fp := (cs2.dropWhile (fun c => c != '.')).drop 1
  mkRat (digitsToNat ip * 10 ^ fp.length + digitsToNat fp : ℤ) (10 ^ fp.length)

/-- The dict returned by `parse_sms`: the no-extraction case
`{'confidence': 0.0}` is `amount = none` with empty strings. -/
structure ParseResult where
  amount : Option ℚ
  reference : String
  txid : String
  account : String
  confidence : ℚ
  provider : String
deriving DecidableEq, Repr

/-- The per-match result construction of `parse_sms` (lines 48-79).  The
code reads `match.group(3)` for the mo626/tnm/airtel reference without
checking the group count, so on the two-group mo626 DEPOSITED template this
raises `IndexError`, which the enclosing `except ... continue` turns into
trying the next template — modelled as `none`.  The standard-bank branch
does guard its group count. -/
def buildResult (p : Provider) (gs : List (List Char)) : Option ParseResult :=
  match p with
  | .mo626 =>
    if 3 ≤ gs.length then
      some { amount := some (parseDecimal (gs.getD 0 []))
             reference := String.mk (gs.getD 2 [])
             txid := ""
             account := String.mk (gs.getD 1 [])
             confidence := mkRat 9 10
             provider := "mo626" }
    else none
  | .tnm =>
    if 3 ≤ gs.length then
      some { amount := some (parseDecimal (gs.getD 0 []))
             reference := String.mk (gs.getD 2 [])
             txid := String.mk (gs.getD 2 [])
             account := String.mk (gs.getD 1 [])
             confidence := mkRat 9 10
             provider := "tnm" }
    else none
  | .airtel =>
    if 3 ≤ gs.length then
      some { amount := some (parseDecimal (gs.getD 0 []))
             reference := String.mk (gs.getD 2 [])
             txid := String.mk (gs.getD 2 [])
             account := String.mk (gs.getD 1 [])
             confidence := mkRat 9 10
             provider := "airtel" }
    else none
  | .standard_bank =>
    if 2 ≤ gs.length then
      some { amount := some (parseDecimal (gs.getD 0 []))
             reference := String.mk (gs.getD (if 3 ≤ gs.length then 2 else 1) [])
             txid := ""
             account := if 3 ≤ gs.length then String.mk (gs.getD 1 []) else ""
             confidence := mkRat 9 10
             provider := "standard_bank" }
    else none

/-- The template loop of `parse_sms` (lines 45-79): first matching template
wins; a group-index error inside the branch falls through to the next
template. -/
def tryPatterns : List (Provider × List RTok) → List Char → Option ParseResult
  | [], _ => none
  | (p, toks) :: rest, input =>
    match reSearch toks input with
    | some gs =>
      match buildResult p gs with
      | some r => some r
      | none => tryPatterns rest input
    | none => tryPatterns rest input

/-- The bare-amount fallback of `parse_sms` (lines 81-101): first
`MWK\s*([\d,]+\.\d{2})`, then `K\s*([\d,]+\.\d{2})`, confidence 0.3;
otherwise confidence 0.0. -/
def fallback_result (input : List Char) : ParseResult :=
  match reSearch [litT "MWK", .ws, .amt] input with
  | some gs =>
    { amount := some (parseDecimal (gs.getD 0 []))
      reference := "", txid := "", account := ""
      confidence := mkRat 3 10, provider := "unknown" }
  | none =>
    match reSearch [litT "K", .ws, .amt] input with
    | some gs =>
      { amount := some (parseDecimal (gs.getD 0 []))
        reference := "", txid := "", account := ""
        confidence := mkRat 3 10, provider := "unknown" }
    | none =>
      { amount := none, reference := "", txid := "", account := ""
        confidence := 0, provider := "" }

/-- Python `str.strip()` on a character list. -/
def trimChars (cs : List Char) : List Char :=
  ((cs.dropWhile isWsChar).reverse.dropWhile isWsChar).reverse

/-- `ProofParser.parse_sms` (lines 10-101): uppercase and strip the text,
try the provider templates in order, then the bare-amount fallback. -/
def parse_sms (sms_text : String) : ParseResult :=
  let cs := trimChars (sms_text.data.map Char.toUpper)
  match tryPatterns all_patterns cs with
  | some r => r
  | none => fallback_result cs

/-- Claim C6 (code bug evidence): the round-trip on the claim's example does
yield amount 5000.00, txId "ABC123", confidence 0.9 via the first TNM
template; but a text fully matching the second (two-group) mo626 DEPOSITED
template does not get confidence 0.9: the branch reads `match.group(3)`,
the raised `IndexError` is swallowed by `except ... continue`, no other
template matches, and the bare-amount fallback returns confidence 0.3 with
no reference. -/
theorem claim6_parse_sms :
    parse_sms "RECEIVED K5,000.00 FROM 0991234567. TXN ID: ABC123"
      = { amount := some (mkRat 5000 1), reference := "ABC123", txid := "ABC123",
          account := "0991234567", confidence := mkRat 9 10, provider := "tnm" }
    ∧ parse_sms "DEPOSITED MWK 100.00 INTO YOUR ACCOUNT. REF: ABC123"
      = { amount := some (mkRat 100 1), reference := "", txid := "",
          account := "", confidence := mkRat 3 10, provider := "unknown" }
    ∧ parse_sms "NOTHING TO EXTRACT HERE"
      = { amount := none, reference := "", txid := "",
          account := "", confidence := 0, provider := "" }
    ∧ mkRat 9 10 = 9/10 ∧ mkRat 3 10 = 3/10 ∧ mkRat 5000 1 = 5000 := by
  refine ⟨by decide, by decide, by decide, ?_, ?_, ?_⟩ <;>
    rw [Rat.mkRat_eq_divInt, Rat.divInt_eq_div] <;> norm_num

end MoneySwap
